import Mathlib

/-!
Verification development for the syndicate speech pipeline.

The definitions below are shallow embeddings of the Python sources:
`src/processor/speech_recognizer.py` (endpointing state machine, calibration,
audio callback, retry loop, finalization) and `src/processor/tts_synthesizer.py`
(playback queue and worker).  Wall-clock times, energies and confidences are
modelled as rationals; machine state that the Python code keeps in instance
attributes is passed explicitly.
-/

/-- Endpointing parameters: the `silence_threshold` / `phrase_timeout` arguments of
`listen_and_transcribe` and the `MIN_SPEECH_DURATION` configuration value. -/
structure EndpointParams where
  silence_threshold : ℚ
  phrase_timeout : ℚ
  min_speech_duration : ℚ
deriving DecidableEq

/-- The speech-detection state kept by the loop in `listen_and_transcribe`
(lines 481-485): `is_speaking`, `speech_start_time`, `phrase_start_time`,
`silence_start_time`. -/
structure SpeechState where
  is_speaking : Bool
  speech_start_time : ℚ
  phrase_start_time : ℚ
  silence_start_time : ℚ
deriving DecidableEq

/-- The end-of-speech decision computed each loop iteration
(`speech_recognizer.py` lines 535-552): the three endpoint conditions are
tested in order and the first one that holds fixes `end_reason`. -/
def endReason (p : EndpointParams) (now : ℚ) (st : SpeechState) : Option String :=
  let silence_duration := if st.silence_start_time > 0 then now - st.silence_start_time else 0
  let speech_duration := now - st.speech_start_time
  let total_phrase_duration := now - st.phrase_start_time
  if silence_duration > p.silence_threshold then some "silence_threshold"
  else if total_phrase_duration > p.phrase_timeout then some "phrase_timeout"
  else if speech_duration < p.min_speech_duration ∧ silence_duration > 1 then
    some "min_speech_duration"
  else none

/-- The end-of-speech decision as claim C1 words it: an ordered disjunction whose
first condition is guarded by `silenceStartTime > 0` but whose third condition
compares the raw difference `now - silenceStartTime` with 1 s. -/
def claimEndReason (p : EndpointParams) (now : ℚ) (st : SpeechState) : Option String :=
  if st.silence_start_time > 0 ∧ now - st.silence_start_time > p.silence_threshold then
    some "silence_threshold"
  else if now - st.phrase_start_time > p.phrase_timeout then some "phrase_timeout"
  else if now - st.speech_start_time < p.min_speech_duration ∧
      now - st.silence_start_time > 1 then
    some "min_speech_duration"
  else none

/-- The amended decision: as C1, but the third condition is also guarded by
`silenceStartTime > 0`, i.e. it uses the running-silence duration, which is 0
while no silence timer is active. -/
def amendedEndReason (p : EndpointParams) (now : ℚ) (st : SpeechState) : Option String :=
  if st.silence_start_time > 0 ∧ now - st.silence_start_time > p.silence_threshold then
    some "silence_threshold"
  else if now - st.phrase_start_time > p.phrase_timeout then some "phrase_timeout"
  else if now - st.speech_start_time < p.min_speech_duration ∧
      (st.silence_start_time > 0 ∧ now - st.silence_start_time > 1) then
    some "min_speech_duration"
  else none

/-- Python's `str.strip()`: remove leading and trailing whitespace. -/
def pyStrip (s : String) : String :=
  ⟨(((s.data.dropWhile Char.isWhitespace).reverse.dropWhile Char.isWhitespace).reverse)⟩

/-- The JSON object returned by the engine's `FinalResult()`
(`_finalize_recognition` reads `text` and `confidence` with defaults). -/
structure FinalResultJson where
  text : Option String
  confidence : Option ℚ
deriving DecidableEq

/-- Modelled from the spec: the external transcription engine (spec §6,
`TranscriptionEngine`, realized by the black-box vosk `KaldiRecognizer`).
`final_json` is what its `finalResult()` call would currently return and
`buffered` records whether it still holds accumulated utterance state. -/
structure Engine where
  final_json : FinalResultJson
  buffered : Bool
deriving DecidableEq

/-- Modelled from the spec: `finalResult()` returns the final JSON and flushes
the engine's buffered utterance state (spec §3 invariant: a Final result
"clears/resets ... the underlying transcription engine's internal state"). -/
def Engine.finalResult (e : Engine) : FinalResultJson × Engine :=
  (e.final_json, { e with buffered := false })

/-- The configuration values of `_load_config` used by `_finalize_recognition`. -/
structure RecogConfig where
  min_confidence_threshold : ℚ
  enable_confidence_filtering : Bool
  enable_custom_vocabulary : Bool
  enable_grammar_correction : Bool
  enable_spell_check : Bool
deriving DecidableEq

/-- A finalized recognition result as produced by `_finalize_recognition`
(the text, the pre-processing original, the confidence and the end reason). -/
structure FinalRes where
  text : String
  original_text : String
  confidence : ℚ
  end_reason : String
deriving DecidableEq

/-- Embeds `_finalize_recognition` (lines 615-672): pull the final JSON from the
engine, default the text to `""` and the confidence to `0.0`, strip the text,
drop empty results, apply confidence filtering, and otherwise build the final
tuple (text post-processing is the abstract `process` argument). -/
def finalizeRecognition (cfg : RecogConfig) (process : String → String)
    (e : Engine) (end_reason : String) : Option FinalRes × Engine :=
  let j := e.finalResult.1
  let e' := e.finalResult.2
  let final_text := pyStrip (j.text.getD "")
  let confidence := j.confidence.getD 0
  if final_text = "" then (none, e')
  else if cfg.enable_confidence_filtering = true ∧ confidence < cfg.min_confidence_threshold then
    (none, e')
  else
    let processed_text :=
      if cfg.enable_custom_vocabulary = true ∨ cfg.enable_grammar_correction = true ∨
          cfg.enable_spell_check = true then process final_text
      else final_text
    (some { text := processed_text, original_text := final_text,
            confidence := confidence, end_reason := end_reason }, e')

/-- The end-of-speech check performed each iteration with a dequeued frame
(`listen_and_transcribe` lines 535-562): while speaking, evaluate `endReason`;
on a hit, call `_finalize_recognition` and reset `is_speaking` and
`silence_start_time`.  Returns the new state, the new engine state and the
yielded final result (if any). -/
def checkEndOfSpeech (cfg : RecogConfig) (p : EndpointParams) (process : String → String)
    (now : ℚ) (st : SpeechState) (e : Engine) :
    SpeechState × Engine × Option FinalRes :=
  if st.is_speaking = true then
    match endReason p now st with
    | some r =>
        ({ st with is_speaking := false, silence_start_time := 0 },
         (finalizeRecognition cfg process e r).2,
         (finalizeRecognition cfg process e r).1)
    | none => (st, e, none)
  else (st, e, none)

/-- The amended-claim version of the end-of-speech check: identical to
`checkEndOfSpeech` but driven by `amendedEndReason`. -/
def amendedCheckEndOfSpeech (cfg : RecogConfig) (p : EndpointParams) (process : String → String)
    (now : ℚ) (st : SpeechState) (e : Engine) :
    SpeechState × Engine × Option FinalRes :=
  if st.is_speaking = true then
    match amendedEndReason p now st with
    | some r =>
        ({ st with is_speaking := false, silence_start_time := 0 },
         (finalizeRecognition cfg process e r).2,
         (finalizeRecognition cfg process e r).1)
    | none => (st, e, none)
  else (st, e, none)

/-- The `queue.Empty` branch of the loop (`listen_and_transcribe` lines 564-573):
when no frame arrived within the poll timeout, re-read the wall clock and, while
speaking, finalize with reason `"phrase_timeout"` if the total phrase duration
exceeds the timeout; `is_speaking` is cleared but `silence_start_time` is not. -/
def emptyQueueCheck (cfg : RecogConfig) (p : EndpointParams) (process : String → String)
    (now : ℚ) (st : SpeechState) (e : Engine) :
    SpeechState × Engine × Option FinalRes :=
  if st.is_speaking = true then
    if now - st.phrase_start_time > p.phrase_timeout then
      ({ st with is_speaking := false },
       (finalizeRecognition cfg process e "phrase_timeout").2,
       (finalizeRecognition cfg process e "phrase_timeout").1)
    else (st, e, none)
  else (st, e, none)

/-- Embeds `_calibrate_environment` lines 426-441, applied to the per-frame RMS
energies of the captured calibration samples: with at least one sample the new
ambient estimate is `total_energy / sample_count` (the inner
`if sample_count > 0` guard of line 437 is kept, though it cannot fail there);
with no samples the assignment to `vad.ambient_energy` is skipped entirely, so
the previous ambient value survives. -/
def calibrateAmbient (energy_threshold prev_ambient : ℚ) (energies : List ℚ) : ℚ :=
  if energies ≠ [] then
    if energies.length > 0 then energies.sum / (energies.length : ℚ) else energy_threshold
  else prev_ambient

/-- Modelled from the spec (claim C4 reading of §4.2): the calibration estimate
is the mean of the lowest third of the per-frame RMS energies, and a run with no
samples returns the configured default threshold. -/
def lowestThirdMean (default_threshold : ℚ) (energies : List ℚ) : ℚ :=
  if energies = [] then default_threshold
  else
    let sorted := List.insertionSort (fun a b => a ≤ b) energies
    let bottom := sorted.take (energies.length / 3)
    bottom.sum / (bottom.length : ℚ)

/-- The partial-text emissions of the Speaking state (`listen_and_transcribe`
lines 517-521 and 529-532): each iteration is a pair of the engine's
`AcceptWaveform` return value and the text of `PartialResult()`; a partial is
yielded exactly when the former is true and the latter non-empty.  No record of
the previously emitted partial is kept. -/
def emittedPrelims : List (Bool × String) → List String
  | [] => []
  | (accepted, text) :: rest =>
    if accepted = true ∧ text ≠ "" then text :: emittedPrelims rest
    else emittedPrelims rest

/-- Modelled from the spec (claim C5): as `emittedPrelims`, but a partial equal
to the last emitted partial is suppressed (the second argument carries the last
emitted text, initially `""`). -/
def dedupPrelims : List (Bool × String) → String → List String
  | [], _ => []
  | (accepted, text) :: rest, last =>
    if accepted = true ∧ text ≠ "" ∧ text ≠ last then text :: dedupPrelims rest text
    else dedupPrelims rest last

/-- The consumer-side view of the capture callback state: the frame queue
(`audio_queue`, front = oldest) together with a drop counter.  The counter is
part of the model only so that claim C6's assertion about it can be stated; the
Python code keeps no such counter. -/
structure CaptureState where
  frames : List (List ℤ)
  dropped : ℕ
deriving DecidableEq

/-- Embeds `_audio_callback` (lines 374-399): process the incoming samples and enqueue
them only when `audio_queue.qsize() < buffer_size`; otherwise the frame is
dropped (a debug message is logged) and nothing else changes. -/
def audioCallback (buffer_size : ℕ) (process_audio : List ℤ → List ℤ)
    (indata : List ℤ) (s : CaptureState) : CaptureState :=
  let processed := process_audio indata
  if s.frames.length < buffer_size then { s with frames := s.frames ++ [processed] }
  else s

/-- Modelled from the spec (claim C6): as `audioCallback`, but an enqueue
failure increments the drop counter. -/
def claimAudioCallback (buffer_size : ℕ) (process_audio : List ℤ → List ℤ)
    (indata : List ℤ) (s : CaptureState) : CaptureState :=
  let processed := process_audio indata
  if s.frames.length < buffer_size then { s with frames := s.frames ++ [processed] }
  else { s with dropped := s.dropped + 1 }

/-- A waveform handed to the playback queue of `tts_synthesizer.py`:
the sample array and its sample rate. -/
structure AudioClip where
  samples : List ℚ
  samplerate : ℕ
deriving DecidableEq

/-- Events of the playback worker: starting to play a clip (`sd.play`) and the
completion of that clip (`sd.wait` returning). -/
inductive PlayEvent
  | playing (clip : AudioClip)
  | finished (clip : AudioClip)
deriving DecidableEq

/-- Embeds `_audio_playback_worker` (lines 245-263) run over the queued items: each
dequeued clip is played (`sd.play`) and waited for (`sd.wait`) before the next
dequeue; a `None` item is the shutdown sentinel and stops the worker. -/
def audioPlaybackWorker : List (Option AudioClip) → List PlayEvent
  | [] => []
  | none :: _ => []
  | some clip :: rest =>
    PlayEvent.playing clip :: PlayEvent.finished clip :: audioPlaybackWorker rest

/-- The event trace of playing a list of clips back-to-back, to completion,
in list order. -/
def playbackTrace : List AudioClip → List PlayEvent
  | [] => []
  | clip :: rest => PlayEvent.playing clip :: PlayEvent.finished clip :: playbackTrace rest

/-- Python's `len(text.split())`: the number of whitespace-separated words. -/
def wordCount (text : String) : ℕ :=
  ((text.data.splitOnP Char.isWhitespace).filter fun w => w ≠ []).length

/-- The silent fallback clip built in `speak` (lines 450-453): sample rate
22050, duration `max(1.0, len(text.split()) * 0.3)` seconds, all samples 0
(`np.zeros(int(samplerate * duration))`). -/
def fallbackSilence (text : String) : AudioClip :=
  { samples := List.replicate (⌊(22050 : ℚ) * max 1 ((wordCount text : ℚ) * 3 / 10)⌋).toNat 0,
    samplerate := 22050 }

/-- Embeds `speak` (lines 425-454), reduced to its effect on the playback queue:
blank text returns without enqueuing; a generated waveform is enqueued as-is
(even when empty); a failed generation (`None`) enqueues the silent fallback
clip and logs a warning. -/
def speak (gen_result : Option AudioClip) (text : String) (q : List AudioClip) :
    List AudioClip :=
  if pyStrip text = "" then q
  else
    match gen_result with
    | some clip => q ++ [clip]
    | none => q ++ [fallbackSilence text]

/-- Modelled from the spec (claim C9): a failed generation or an empty waveform
is skipped — nothing is enqueued for that request. -/
def claimSpeak (gen_result : Option AudioClip) (text : String) (q : List AudioClip) :
    List AudioClip :=
  if pyStrip text = "" then q
  else
    match gen_result with
    | some clip => if clip.samples = [] then q else q ++ [clip]
    | none => q

/-- Events observable from the stream-retry loop of `listen_and_transcribe`
(lines 467-596): the fixed `time.sleep(retry_delay)` pause, a recoverable
error yielded after the pause, and the final non-recoverable error. -/
inductive StreamEvent
  | sleepDelay (d : ℚ)
  | recoverableError (attempt : ℕ)
  | nonrecoverableError
deriving DecidableEq

/-- The retry loop of `listen_and_transcribe` in the scenario where every
attempt to establish or maintain the stream raises (lines 467, 586-596):
while `retry_count <= max_retries` an attempt is made and fails,
`retry_count` is incremented, and either a recovery pause plus a recoverable
error follow (when retries remain and recovery mode is on) or the single
non-recoverable error is yielded and the loop breaks. -/
def retryLoopAllFail (max_retries : ℕ) (retry_delay : ℚ) (recovery_mode : Bool)
    (retry_count : ℕ) : List StreamEvent :=
  if h : retry_count ≤ max_retries then
    if retry_count + 1 ≤ max_retries ∧ recovery_mode = true then
      StreamEvent.sleepDelay retry_delay ::
        StreamEvent.recoverableError (retry_count + 1) ::
          retryLoopAllFail max_retries retry_delay recovery_mode (retry_count + 1)
    else [StreamEvent.nonrecoverableError]
  else []
termination_by max_retries + 1 - retry_count
decreasing_by omega

/-- The error stream claim C8 describes for a persistently failing stream:
`max_retries` delayed recoverable errors, then exactly one non-recoverable
error, then termination. -/
def claimRetryTrace (max_retries : ℕ) (retry_delay : ℚ) : List StreamEvent :=
  ((List.range max_retries).map fun k =>
      [StreamEvent.sleepDelay retry_delay, StreamEvent.recoverableError (k + 1)]).flatten ++
    [StreamEvent.nonrecoverableError]

lemma endReason_eq_amended (p : EndpointParams) (now : ℚ) (st : SpeechState)
    (hp : 0 ≤ p.silence_threshold) :
    endReason p now st = amendedEndReason p now st := by
  by_cases hs : st.silence_start_time > 0
  · simp only [endReason, amendedEndReason, if_pos hs]
    have h1 : (now - st.silence_start_time > p.silence_threshold) ↔
        (st.silence_start_time > 0 ∧ now - st.silence_start_time > p.silence_threshold) := by
      tauto
    have h3 : (now - st.speech_start_time < p.min_speech_duration ∧
        now - st.silence_start_time > 1) ↔
        (now - st.speech_start_time < p.min_speech_duration ∧
          (st.silence_start_time > 0 ∧ now - st.silence_start_time > 1)) := by
      tauto
    rw [if_congr h1 rfl rfl]
    split
    · rfl
    · rw [if_congr Iff.rfl rfl (if_congr h3 rfl rfl)]
  · simp only [endReason, amendedEndReason, if_neg hs]
    have h1 : ¬ ((0 : ℚ) > p.silence_threshold) := by linarith
    have h1' : ¬ (st.silence_start_time > 0 ∧
        now - st.silence_start_time > p.silence_threshold) := by tauto
    have h3 : ¬ (now - st.speech_start_time < p.min_speech_duration ∧ (0 : ℚ) > 1) := by
      rintro ⟨-, h⟩; linarith
    have h3' : ¬ (now - st.speech_start_time < p.min_speech_duration ∧
        (st.silence_start_time > 0 ∧ now - st.silence_start_time > 1)) := by tauto
    rw [if_neg h1, if_neg h1']
    rw [if_neg h3, if_neg h3']

lemma finalizeRecognition_discard (cfg : RecogConfig) (process : String → String)
    (e : Engine) (end_reason : String)
    (hdrop : pyStrip (e.final_json.text.getD "") = "" ∨
      (cfg.enable_confidence_filtering = true ∧
        e.final_json.confidence.getD 0 < cfg.min_confidence_threshold)) :
    finalizeRecognition cfg process e end_reason = (none, { e with buffered := false }) := by
  simp only [finalizeRecognition, Engine.finalResult]
  split_ifs with h1 h2 h3
  · rfl
  · rfl
  all_goals
    exfalso
    rcases hdrop with h | h
    · exact h1 h
    · exact h2 h

/-- C1 (counterexample): at a moment where speech just started (no silence
timer running, `silence_start_time = 0`), the claim's literal third condition
`now - silenceStartTime > 1.0` holds (100 - 0 > 1) and the claim demands
finalization with reason `min_speech_duration`, but the code computes a
silence duration of 0, meets no endpoint condition, and does not finalize. -/
theorem c1_counterexample :
    claimEndReason ⟨3, 20, 2⟩ 100 ⟨true, 99, 99, 0⟩ = some "min_speech_duration" ∧
    endReason ⟨3, 20, 2⟩ 100 ⟨true, 99, 99, 0⟩ = none ∧
    checkEndOfSpeech ⟨1, true, false, false, false⟩ ⟨3, 20, 2⟩ id 100
        ⟨true, 99, 99, 0⟩ ⟨⟨some "hello", some 1⟩, true⟩ =
      (⟨true, 99, 99, 0⟩, ⟨⟨some "hello", some 1⟩, true⟩, none) := by
  have h : endReason ⟨3, 20, 2⟩ 100 ⟨true, 99, 99, 0⟩ = none := by
    norm_num [endReason]
  refine ⟨by norm_num [claimEndReason], h, ?_⟩
  simp [checkEndOfSpeech, h]

/-- C1 (amended): for a non-negative silence threshold, the per-iteration
endpoint evaluation of the Speaking state is the claimed ordered disjunction
with the third condition also guarded by `silenceStartTime > 0` (it compares
the running-silence duration, which is 0 while no silence timer is active);
on any hit, finalization is requested and the state returns to Idle with the
silence timer cleared. -/
theorem c1_endpoint_order (cfg : RecogConfig) (p : EndpointParams)
    (process : String → String) (now : ℚ) (st : SpeechState) (e : Engine)
    (hp : 0 ≤ p.silence_threshold) :
    endReason p now st = amendedEndReason p now st ∧
    checkEndOfSpeech cfg p process now st e = amendedCheckEndOfSpeech cfg p process now st e := by
  have h := endReason_eq_amended p now st hp
  refine ⟨h, ?_⟩
  unfold checkEndOfSpeech amendedCheckEndOfSpeech
  rw [h]

theorem c1_endpoint_order_witness :
    (0 : ℚ) ≤ (⟨3, 20, 2⟩ : EndpointParams).silence_threshold ∧
    (endReason ⟨3, 20, 2⟩ 100 ⟨true, 90, 90, 95⟩ =
        amendedEndReason ⟨3, 20, 2⟩ 100 ⟨true, 90, 90, 95⟩ ∧
      checkEndOfSpeech ⟨1, true, true, true, true⟩ ⟨3, 20, 2⟩ id 100
          ⟨true, 90, 90, 95⟩ ⟨⟨some "hello", some 1⟩, true⟩ =
        amendedCheckEndOfSpeech ⟨1, true, true, true, true⟩ ⟨3, 20, 2⟩ id 100
          ⟨true, 90, 90, 95⟩ ⟨⟨some "hello", some 1⟩, true⟩) :=
  ⟨by norm_num, c1_endpoint_order _ _ _ _ _ _ (by norm_num)⟩

/-- C2 (counterexample): a poll that finds the audio queue empty does not
evaluate the silence-threshold condition.  Here the machine is Speaking, the
silence timer has been running for 10 s against a 2 s threshold (so
`endReason` reports `silence_threshold`, and a frame-carrying iteration would
finalize and leave the Speaking state), yet the empty-queue branch leaves the
state untouched and emits nothing because the phrase timeout (100 s) has not
elapsed. -/
theorem c2_counterexample :
    emptyQueueCheck ⟨1, true, false, false, false⟩ ⟨2, 100, 0⟩ id 20
        ⟨true, 0, 0, 10⟩ ⟨⟨some "hi", some 1⟩, true⟩ =
      (⟨true, 0, 0, 10⟩, ⟨⟨some "hi", some 1⟩, true⟩, none) ∧
    endReason ⟨2, 100, 0⟩ 20 ⟨true, 0, 0, 10⟩ = some "silence_threshold" ∧
    (checkEndOfSpeech ⟨1, true, false, false, false⟩ ⟨2, 100, 0⟩ id 20
        ⟨true, 0, 0, 10⟩ ⟨⟨some "hi", some 1⟩, true⟩).1.is_speaking = false := by
  have h : endReason ⟨2, 100, 0⟩ 20 ⟨true, 0, 0, 10⟩ = some "silence_threshold" := by
    norm_num [endReason]
  refine ⟨?_, h, ?_⟩
  · unfold emptyQueueCheck
    rw [if_pos rfl, if_neg (by norm_num)]
  · simp [checkEndOfSpeech, h]

/-- C2 (amended): while Speaking, an empty poll evaluates only the phrase
timeout against wall-clock time: once `now - phraseStartTime` exceeds
`phraseTimeout` the utterance is finalized with reason `phrase_timeout` and
`is_speaking` is cleared (so an in-progress utterance is still finalized when
no further frames ever arrive), but below that bound the empty poll finalizes
nothing, even when the silence threshold or the minimum-speech-duration
condition already holds. -/
theorem c2_empty_queue (cfg : RecogConfig) (p : EndpointParams)
    (process : String → String) (now : ℚ) (st : SpeechState) (e : Engine)
    (hsp : st.is_speaking = true) :
    (now - st.phrase_start_time > p.phrase_timeout →
      emptyQueueCheck cfg p process now st e =
        ({ st with is_speaking := false },
         (finalizeRecognition cfg process e "phrase_timeout").2,
         (finalizeRecognition cfg process e "phrase_timeout").1)) ∧
    (¬ now - st.phrase_start_time > p.phrase_timeout →
      emptyQueueCheck cfg p process now st e = (st, e, none)) := by
  refine ⟨fun h => ?_, fun h => ?_⟩
  · unfold emptyQueueCheck
    rw [if_pos hsp, if_pos h]
  · unfold emptyQueueCheck
    rw [if_pos hsp, if_neg h]

theorem c2_empty_queue_witness :
    ((⟨true, 0, 0, 10⟩ : SpeechState).is_speaking = true) ∧
    ((20 - (⟨true, 0, 0, 10⟩ : SpeechState).phrase_start_time >
        (⟨2, 100, 0⟩ : EndpointParams).phrase_timeout →
      emptyQueueCheck ⟨1, true, false, false, false⟩ ⟨2, 100, 0⟩ id 20
          ⟨true, 0, 0, 10⟩ ⟨⟨some "hi", some 1⟩, true⟩ =
        ({ (⟨true, 0, 0, 10⟩ : SpeechState) with is_speaking := false },
         (finalizeRecognition ⟨1, true, false, false, false⟩ id
            ⟨⟨some "hi", some 1⟩, true⟩ "phrase_timeout").2,
         (finalizeRecognition ⟨1, true, false, false, false⟩ id
            ⟨⟨some "hi", some 1⟩, true⟩ "phrase_timeout").1)) ∧
      (¬ 20 - (⟨true, 0, 0, 10⟩ : SpeechState).phrase_start_time >
          (⟨2, 100, 0⟩ : EndpointParams).phrase_timeout →
        emptyQueueCheck ⟨1, true, false, false, false⟩ ⟨2, 100, 0⟩ id 20
            ⟨true, 0, 0, 10⟩ ⟨⟨some "hi", some 1⟩, true⟩ =
          (⟨true, 0, 0, 10⟩, ⟨⟨some "hi", some 1⟩, true⟩, none))) :=
  ⟨rfl, c2_empty_queue _ _ _ _ _ _ rfl⟩

/-- C3: whenever an endpoint condition triggers finalization and the engine's
final text is empty (after stripping) or its confidence is below the threshold
with confidence filtering enabled, no Final result is emitted, yet the state
still resets for the next utterance: `is_speaking` becomes false, the silence
timer is cleared, and the engine's final-result call has flushed its buffered
state. -/
theorem c3_discard_resets (cfg : RecogConfig) (p : EndpointParams)
    (process : String → String) (now : ℚ) (st : SpeechState) (e : Engine) (r : String)
    (hsp : st.is_speaking = true)
    (hr : endReason p now st = some r)
    (hdrop : pyStrip (e.final_json.text.getD "") = "" ∨
      (cfg.enable_confidence_filtering = true ∧
        e.final_json.confidence.getD 0 < cfg.min_confidence_threshold)) :
    checkEndOfSpeech cfg p process now st e =
      ({ st with is_speaking := false, silence_start_time := 0 },
       { e with buffered := false }, none) := by
  simp [checkEndOfSpeech, hsp, hr, finalizeRecognition_discard cfg process e r hdrop]

theorem c3_discard_resets_witness :
    ((⟨true, 0, 0, 10⟩ : SpeechState).is_speaking = true) ∧
    endReason ⟨2, 100, 0⟩ 20 ⟨true, 0, 0, 10⟩ = some "silence_threshold" ∧
    (pyStrip ((⟨⟨some "hi", some 0⟩, true⟩ : Engine).final_json.text.getD "") = "" ∨
      ((⟨1, true, false, false, false⟩ : RecogConfig).enable_confidence_filtering = true ∧
        (⟨⟨some "hi", some 0⟩, true⟩ : Engine).final_json.confidence.getD 0 <
          (⟨1, true, false, false, false⟩ : RecogConfig).min_confidence_threshold)) ∧
    checkEndOfSpeech ⟨1, true, false, false, false⟩ ⟨2, 100, 0⟩ id 20
        ⟨true, 0, 0, 10⟩ ⟨⟨some "hi", some 0⟩, true⟩ =
      (⟨false, 0, 0, 0⟩, ⟨⟨some "hi", some 0⟩, false⟩, none) :=
  ⟨rfl, by norm_num [endReason], Or.inr ⟨rfl, by norm_num⟩,
    c3_discard_resets ⟨1, true, false, false, false⟩ ⟨2, 100, 0⟩ id 20
      ⟨true, 0, 0, 10⟩ ⟨⟨some "hi", some 0⟩, true⟩ "silence_threshold" rfl
      (by norm_num [endReason]) (Or.inr ⟨rfl, by norm_num⟩)⟩

/-- C10: when the engine's final result carries no confidence value,
`_finalize_recognition` defaults it to 0.0, so with confidence filtering
enabled and a positive minimum threshold the result is discarded and no Final
is emitted, whatever its text. -/
theorem c10_missing_confidence (cfg : RecogConfig) (process : String → String)
    (e : Engine) (end_reason : String)
    (hconf : e.final_json.confidence = none)
    (hfilter : cfg.enable_confidence_filtering = true)
    (hthr : 0 < cfg.min_confidence_threshold) :
    (finalizeRecognition cfg process e end_reason).1 = none := by
  simp only [finalizeRecognition, Engine.finalResult, hconf, Option.getD_none]
  split_ifs with h1 h2
  · rfl
  · rfl
  · exact absurd ⟨hfilter, hthr⟩ h2

theorem c10_missing_confidence_witness :
    ((⟨⟨some "hello", none⟩, true⟩ : Engine).final_json.confidence = none) ∧
    ((⟨1, true, false, false, false⟩ : RecogConfig).enable_confidence_filtering = true) ∧
    (0 < (⟨1, true, false, false, false⟩ : RecogConfig).min_confidence_threshold) ∧
    (finalizeRecognition ⟨1, true, false, false, false⟩ id
        ⟨⟨some "hello", none⟩, true⟩ "silence_threshold").1 = none :=
  ⟨rfl, rfl, by norm_num,
    c10_missing_confidence _ _ _ _ rfl rfl (by norm_num)⟩

/-- C4 (counterexample): for per-frame RMS energies `[1, 2, 9]`,
`_calibrate_environment` sets the ambient estimate to the mean of all samples,
`(1 + 2 + 9) / 3 = 4`, whereas the claimed mean of the lowest third of the
samples is `1`. -/
theorem c4_counterexample :
    calibrateAmbient 800 800 [1, 2, 9] = 4 ∧
    lowestThirdMean 800 [1, 2, 9] = 1 ∧
    calibrateAmbient 800 800 [1, 2, 9] ≠ lowestThirdMean 800 [1, 2, 9] := by
  have h1 : calibrateAmbient 800 800 [1, 2, 9] = 4 := by
    unfold calibrateAmbient
    rw [if_pos (show ([1, 2, 9] : List ℚ) ≠ [] by simp)]
    norm_num [List.sum_cons, List.sum_nil]
  have h2 : lowestThirdMean 800 [1, 2, 9] = 1 := by
    unfold lowestThirdMean
    rw [if_neg (show ¬ ([1, 2, 9] : List ℚ) = [] by simp)]
    norm_num [List.insertionSort, List.orderedInsert, List.sum_cons, List.sum_nil]
  refine ⟨h1, h2, ?_⟩
  rw [h1, h2]
  norm_num

/-- C4 (amended): the calibration estimate is the mean of all per-frame RMS
energies; a run that captures no frames leaves the ambient estimate at its
previous value, which equals the configured threshold only when that was the
previous value (as on the first run after initialization). -/
theorem c4_calibration_mean (thr prev : ℚ) (energies : List ℚ)
    (h : energies ≠ []) :
    calibrateAmbient thr prev energies = energies.sum / (energies.length : ℚ) ∧
    calibrateAmbient thr prev [] = prev ∧
    calibrateAmbient thr thr [] = thr := by
  refine ⟨?_, by simp [calibrateAmbient], by simp [calibrateAmbient]⟩
  unfold calibrateAmbient
  rw [if_pos h, if_pos (List.length_pos.mpr h)]

theorem c4_calibration_mean_witness :
    (([2, 4] : List ℚ) ≠ []) ∧
    (calibrateAmbient 800 700 [2, 4] = ([2, 4] : List ℚ).sum / (([2, 4] : List ℚ).length : ℚ) ∧
      calibrateAmbient 800 700 [] = 700 ∧
      calibrateAmbient 800 800 [] = 800) :=
  ⟨by simp, c4_calibration_mean 800 700 [2, 4] (by simp)⟩

/-- C5 (counterexample): the engine reports the same non-empty partial text in
two consecutive iterations; the code emits it twice, while the claimed
dedup-against-last-emitted behaviour emits it once. -/
theorem c5_counterexample :
    emittedPrelims [(true, "hi"), (true, "hi")] = ["hi", "hi"] ∧
    dedupPrelims [(true, "hi"), (true, "hi")] "" = ["hi"] := by
  constructor
  · simp [emittedPrelims]
  · simp [dedupPrelims]

/-- C5 (amended): while Speaking, a Partial result is emitted whenever the
engine's accept call signals a result and the partial text is non-empty; the
text is not compared with the previously emitted partial, so an unchanged
partial is re-emitted. -/
theorem c5_emission_no_dedup (iters : List (Bool × String)) :
    emittedPrelims iters =
      (iters.filter fun pr => pr.1 && !(pr.2 == "")).map Prod.snd := by
  induction iters with
  | nil => rfl
  | cons head rest ih =>
      obtain ⟨a, t⟩ := head
      by_cases h : a = true ∧ t ≠ ""
      · simp only [emittedPrelims, if_pos h, List.filter_cons]
        rw [if_pos (by simp [h.1, h.2])]
        simp [ih]
      · simp only [emittedPrelims, if_neg h, List.filter_cons]
        rw [if_neg ?_]
        · exact ih
        · simp only [Bool.and_eq_true, Bool.not_eq_true', beq_eq_false_iff_ne]
          tauto

/-- C6 (counterexample): with capacity 1 and one frame already queued, the
callback drops the incoming frame but increments no counter (the code keeps
none); the claimed behaviour would count the drop. -/
theorem c6_counterexample :
    (audioCallback 1 id [7] ⟨[[3]], 0⟩).dropped = 0 ∧
    (claimAudioCallback 1 id [7] ⟨[[3]], 0⟩).dropped = 1 ∧
    (audioCallback 1 id [7] ⟨[[3]], 0⟩).frames = [[3]] := by
  refine ⟨?_, ?_, ?_⟩ <;> simp [audioCallback, claimAudioCallback]

/-- C6 (amended): when the frame queue already holds at least the configured
capacity of items, the callback leaves the state entirely unchanged — the
incoming frame is dropped (a debug message is logged) and no drop counter is
incremented, because none exists.  (The callback is a total function of the
state: the non-blocking `put(block=False)` path is taken only below
capacity.) -/
theorem c6_full_drop (buffer_size : ℕ) (process_audio : List ℤ → List ℤ)
    (indata : List ℤ) (s : CaptureState)
    (h : ¬ s.frames.length < buffer_size) :
    audioCallback buffer_size process_audio indata s = s := by
  unfold audioCallback
  rw [if_neg h]

theorem c6_full_drop_witness :
    (¬ (⟨[[3]], 0⟩ : CaptureState).frames.length < 1) ∧
    audioCallback 1 id [7] ⟨[[3]], 0⟩ = ⟨[[3]], 0⟩ :=
  ⟨by norm_num, c6_full_drop 1 id [7] ⟨[[3]], 0⟩ (by norm_num)⟩

lemma audioPlaybackWorker_map_some (reqs : List AudioClip) :
    audioPlaybackWorker (reqs.map some) = playbackTrace reqs := by
  induction reqs with
  | nil => rfl
  | cons c rest ih => simp [audioPlaybackWorker, playbackTrace, ih]

lemma playbackTrace_playing (reqs : List AudioClip) (i : ℕ) (h : i < reqs.length) :
    (playbackTrace reqs)[2 * i]? = some (PlayEvent.playing reqs[i]) := by
  induction reqs generalizing i with
  | nil => simp at h
  | cons c rest ih =>
      cases i with
      | zero => norm_num [playbackTrace]
      | succ n =>
          have h' : n < rest.length := by simpa using h
          have h2 : 2 * (n + 1) = 2 * n + 1 + 1 := by ring
          rw [h2]
          simp only [playbackTrace, List.getElem?_cons_succ, List.getElem_cons_succ]
          exact ih n h'

lemma playbackTrace_finished (reqs : List AudioClip) (i : ℕ) (h : i < reqs.length) :
    (playbackTrace reqs)[2 * i + 1]? = some (PlayEvent.finished reqs[i]) := by
  induction reqs generalizing i with
  | nil => simp at h
  | cons c rest ih =>
      cases i with
      | zero => norm_num [playbackTrace]
      | succ n =>
          have h' : n < rest.length := by simpa using h
          have h2 : 2 * (n + 1) + 1 = 2 * n + 1 + 1 + 1 := by ring
          rw [h2]
          simp only [playbackTrace, List.getElem?_cons_succ, List.getElem_cons_succ]
          exact ih n h'

/-- C7: the single playback worker dequeues the queued requests in FIFO
submission order and plays each to completion before starting the next: in the
worker's event trace, the completion of the i-th request occurs strictly
before the start of the j-th request whenever i < j, so no two requests ever
play concurrently. -/
theorem c7_playback_fifo (reqs : List AudioClip) (i j : ℕ)
    (hij : i < j) (hi : i < reqs.length) (hj : j < reqs.length) :
    (audioPlaybackWorker (reqs.map some))[2 * i + 1]? =
      some (PlayEvent.finished reqs[i]) ∧
    (audioPlaybackWorker (reqs.map some))[2 * j]? =
      some (PlayEvent.playing reqs[j]) ∧
    2 * i + 1 < 2 * j := by
  rw [audioPlaybackWorker_map_some]
  exact ⟨playbackTrace_finished reqs i hi, playbackTrace_playing reqs j hj, by omega⟩

theorem c7_playback_fifo_witness :
    ((0 : ℕ) < 1) ∧
    (0 < ([⟨[], 8000⟩, ⟨[1], 16000⟩] : List AudioClip).length) ∧
    (1 < ([⟨[], 8000⟩, ⟨[1], 16000⟩] : List AudioClip).length) ∧
    ((audioPlaybackWorker (([⟨[], 8000⟩, ⟨[1], 16000⟩] : List AudioClip).map some))[2 * 0 + 1]? =
        some (PlayEvent.finished ([⟨[], 8000⟩, ⟨[1], 16000⟩] : List AudioClip)[0]) ∧
      (audioPlaybackWorker (([⟨[], 8000⟩, ⟨[1], 16000⟩] : List AudioClip).map some))[2 * 1]? =
        some (PlayEvent.playing ([⟨[], 8000⟩, ⟨[1], 16000⟩] : List AudioClip)[1]) ∧
      2 * 0 + 1 < 2 * 1) :=
  ⟨by norm_num, by simp, by simp,
    c7_playback_fifo [⟨[], 8000⟩, ⟨[1], 16000⟩] 0 1 (by norm_num) (by simp) (by simp)⟩

lemma retryLoopAllFail_closed (max_retries : ℕ) (d : ℚ) :
    ∀ n rc, rc + n = max_retries →
      retryLoopAllFail max_retries d true rc =
        ((List.range n).map fun k =>
            [StreamEvent.sleepDelay d, StreamEvent.recoverableError (rc + k + 1)]).flatten ++
          [StreamEvent.nonrecoverableError] := by
  intro n
  induction n with
  | zero =>
      intro rc h
      rw [retryLoopAllFail, dif_pos (by omega)]
      rw [if_neg (fun hc => absurd hc.1 (by omega))]
      simp
  | succ m ih =>
      intro rc h
      rw [retryLoopAllFail, dif_pos (by omega), if_pos ⟨by omega, rfl⟩]
      rw [ih (rc + 1) (by omega)]
      rw [List.range_succ_eq_map]
      have harith : ∀ k, rc + 1 + k + 1 = rc + (k + 1) + 1 := by omega
      simp [List.map_map, Function.comp_def, harith]

/-- C8: when every attempt to establish or maintain the audio stream fails
(with recovery mode enabled, its default), the recognizer performs
`max_retries` retries after the initial attempt, each preceded by the fixed
`retry_delay` pause and announced by one recoverable error, then yields
exactly one non-recoverable error and the loop terminates. -/
theorem c8_retry_exhaustion (max_retries : ℕ) (retry_delay : ℚ) :
    retryLoopAllFail max_retries retry_delay true 0 =
      claimRetryTrace max_retries retry_delay := by
  rw [retryLoopAllFail_closed max_retries retry_delay max_retries 0 (by omega)]
  unfold claimRetryTrace
  simp

/-- C9 (counterexample): when waveform generation fails for a request, `speak`
does not skip it: it enqueues a silent placeholder clip for the request (the
claimed behaviour would enqueue nothing). -/
theorem c9_counterexample :
    speak none "hello world" [] = [fallbackSilence "hello world"] ∧
    claimSpeak none "hello world" [] = [] := by
  constructor
  · unfold speak
    rw [if_neg (by decide : ¬ pyStrip "hello world" = "")]
    simp
  · unfold claimSpeak
    rw [if_neg (by decide : ¬ pyStrip "hello world" = "")]

/-- C9 (amended): when waveform generation for a non-blank request fails
(`_generate_speech` returns no waveform), a warning is logged and a silent
fallback clip is enqueued in the failed request's place, so something (silence)
is played for it; subsequently queued requests still proceed unblocked — the
worker plays the whole queue, fallback included, back-to-back. -/
theorem c9_silent_fallback (text : String) (q rest : List AudioClip)
    (h : pyStrip text ≠ "") :
    speak none text q = q ++ [fallbackSilence text] ∧
    audioPlaybackWorker ((speak none text q ++ rest).map some) =
      playbackTrace (q ++ fallbackSilence text :: rest) := by
  have h1 : speak none text q = q ++ [fallbackSilence text] := by
    unfold speak
    rw [if_neg h]
  refine ⟨h1, ?_⟩
  rw [h1, audioPlaybackWorker_map_some, List.append_assoc, List.singleton_append]

theorem c9_silent_fallback_witness :
    (pyStrip "hi" ≠ "") ∧
    (speak none "hi" [] = [] ++ [fallbackSilence "hi"] ∧
      audioPlaybackWorker ((speak none "hi" [] ++ []).map some) =
        playbackTrace ([] ++ fallbackSilence "hi" :: [])) :=
  ⟨by decide, c9_silent_fallback "hi" [] [] (by decide)⟩
